import Mathlib

/-! # ARETE Digital Item Bank: verification of the item-analysis core

A shallow embedding of the scoring and statistics engine of `src/app.py`
(Classical Test Theory item analysis): item-column selection and key
reconciliation, binary scoring, extreme-group partitioning, difficulty and
discrimination indices, the KR-20 reliability coefficient, and the
classification rules.

Real arithmetic is modelled over `ℚ`.  The IEEE NaN value produced by
numpy and pandas on the undefined-reliability paths is modelled as
`Option.none`, and comparisons against it return `false`, as IEEE
semantics dictate. -/

namespace Arete

/-- A parsed CSV table: header column names and data rows, row major.
Models a pandas DataFrame as consumed by `main_app` (app.py lines 194 to 201). -/
structure Table where
  cols : List String
  rows : List (List String)
deriving DecidableEq

/-- Failure modes of an analysis run.  `keyError` and `indexError` model the
pandas exceptions that column selection (`key[item_cols]`, app.py line 199)
and first-row access (`key.iloc[0]`, app.py line 201) raise.
`emptyItemSet` and `invalidKeyFormat` are the error states named by the
specification; they are included so that the claims mentioning them can be
stated, and the theorems below show that the code never produces them. -/
inductive RunError where
  | keyError
  | indexError
  | emptyItemSet
  | invalidKeyFormat
deriving DecidableEq

/-- The test `c.lower().startswith("item")` of app.py line 197, written out
on the character list of the name: at least four characters long and the
first four, lowercased, spell "item".  `Char.toLower` lowercases the ASCII
range, which is the range the source exercises. -/
def isItemName (s : String) : Bool :=
  match s.data with
  | c1 :: c2 :: c3 :: c4 :: _ =>
    c1.toLower == 'i' && c2.toLower == 't' && c3.toLower == 'e' && c4.toLower == 'm'
  | _ => false

/-- app.py line 197: the columns of the response table whose name begins,
case insensitively, with "item". -/
def item_cols (cols : List String) : List String :=
  cols.filter isItemName

/-- The data rows of `t` restricted to the columns `sel`, each cell fetched
by the position of its column name in the header. -/
def restrictRows (t : Table) (sel : List String) : List (List String) :=
  t.rows.map (fun r => sel.map (fun c => r.getD (t.cols.findIdx (fun x => x == c)) ""))

/-- DataFrame column selection `t[sel]` (app.py lines 198 and 199): succeeds,
with the selected columns in the requested order, exactly when every
requested name is a column of `t`; otherwise pandas raises a KeyError. -/
def selectCols (t : Table) (sel : List String) : Except RunError Table :=
  if ∀ c ∈ sel, c ∈ t.cols then .ok ⟨sel, restrictRows t sel⟩ else .error .keyError

/-- app.py lines 197 to 199: restrict both uploaded tables to the item
columns detected in the response table. -/
def reconcile (responses key : Table) : Except RunError (Table × Table) :=
  match selectCols responses (item_cols responses.cols) with
  | .error e => .error e
  | .ok r2 =>
    match selectCols key (item_cols responses.cols) with
    | .error e => .error e
    | .ok k2 => .ok (r2, k2)

/-- app.py lines 199 and 201: select the item columns from the key table and
take its first row (`key.iloc[0]`); `iloc[0]` on a frame with no rows raises
an IndexError. -/
def canonicalKey (responses key : Table) : Except RunError (List String) :=
  match selectCols key (item_cols responses.cols) with
  | .error e => .error e
  | .ok k2 =>
    match k2.rows with
    | [] => .error .indexError
    | r :: _ => .ok r

/-- app.py line 201: one examinee row scored against the canonical key row; a
cell equal to the key value scores 1, anything else scores 0. -/
def scoreRow (keyRow row : List String) : List Nat :=
  List.zipWith (fun kv rv => if rv = kv then 1 else 0) keyRow row

/-- Sort of the scored rows by total, descending, modelling
`sort_values("Total", ascending=False)` (app.py line 204).  The source uses
the pandas default sort kind, quicksort, which promises descending totals
but no particular order among rows with equal totals; the claims proved
through this model do not depend on the order of ties, and a later theorem
records that descending order alone does not determine it. -/
def sortDesc (l : List (List Nat)) : List (List Nat) :=
  l.insertionSort (fun a b => b.sum ≤ a.sum)

/-- app.py line 207: `g = max(1, floor(0.27 * n))`.  Over the integers,
`floor(0.27 * n)` equals `27 * n / 100` in natural division; the double
nearest to 0.27 exceeds 27/100 by well under 1e-16 relatively, far too
little to move the floor past an integer for any realistic table size. -/
def groupSize (n : Nat) : Nat := max 1 (27 * n / 100)

/-- app.py line 208: the upper group, first `g` rows of the sorted matrix. -/
def topGroup (scored : List (List Nat)) : List (List Nat) :=
  (sortDesc scored).take (groupSize scored.length)

/-- app.py line 209: the lower group, last `g` rows of the sorted matrix. -/
def bottomGroup (scored : List (List Nat)) : List (List Nat) :=
  (sortDesc scored).drop ((sortDesc scored).length - groupSize scored.length)

/-- app.py lines 213 and 214: count of correct (1) entries for item `j`
within a group; entries beyond the end of a row read as 0. -/
def countOnes (grp : List (List Nat)) (j : Nat) : Nat :=
  (grp.map (fun r => r.getD j 0)).sum

/-- app.py line 215: difficulty index `p = (U + L) / (2 * g)`. -/
def difficulty (scored : List (List Nat)) (j : Nat) : ℚ :=
  ((countOnes (topGroup scored) j : ℚ) + (countOnes (bottomGroup scored) j : ℚ)) /
    (2 * (groupSize scored.length : ℚ))

/-- app.py line 216: discrimination index `d = (U - L) / g`. -/
def discrimination (scored : List (List Nat)) (j : Nat) : ℚ :=
  ((countOnes (topGroup scored) j : ℚ) - (countOnes (bottomGroup scored) j : ℚ)) /
    (groupSize scored.length : ℚ)

/-- app.py lines 71 to 76: the per-item decision from difficulty `p` and
discrimination `d` (thresholds 0.20, 0.26 and 0.75 as exact rationals). -/
def final_decision (p d : ℚ) : String :=
  if 1/5 ≤ d ∧ 13/50 ≤ p ∧ p ≤ 3/4 then "Retained"
  else if d < 1/5 ∧ 13/50 ≤ p ∧ p ≤ 3/4 then "Revised"
  else "Rejected"

/-- The decision rule in the words of claim C1: the spec variant in which
`D ≥ 0.20` with `P` outside the band yields Revised.  Stated only for
comparison against `final_decision`, which is translated from the source. -/
def claimDecision (p d : ℚ) : String :=
  if 1/5 ≤ d ∧ 13/50 ≤ p ∧ p ≤ 3/4 then "Retained"
  else if (d < 1/5 ∧ 13/50 ≤ p ∧ p ≤ 3/4) ∨ (1/5 ≤ d ∧ ¬(13/50 ≤ p ∧ p ≤ 3/4)) then "Revised"
  else "Rejected"

/-- app.py lines 202 and 85: row totals of the scored matrix. -/
def rowTotals (rows : List (List ℚ)) : List ℚ := rows.map List.sum

/-- Column-wise mean over the rows (pandas `df.mean()` at column `j`,
app.py line 82); entries beyond the end of a row read as 0, a default never
exercised on a rectangular frame. -/
def colMean (rows : List (List ℚ)) (j : Nat) : ℚ :=
  (rows.map (fun r => r.getD j 0)).sum / (rows.length : ℚ)

/-- app.py lines 82 to 84: the sum over the `k` item columns of
`p_i * (1 - p_i)`. -/
def pqSum (k : Nat) (rows : List (List ℚ)) : ℚ :=
  ((List.range k).map (fun j => colMean rows j * (1 - colMean rows j))).sum

/-- Sample variance with Bessel correction, `var(ddof=1)` (app.py line 85).
pandas yields NaN when fewer than two observations are present; NaN is
modelled as `none`. -/
def sampleVar (xs : List ℚ) : Option ℚ :=
  if xs.length ≤ 1 then none
  else
    some (((xs.map (fun x => (x - xs.sum / (xs.length : ℚ)) ^ 2)).sum) / ((xs.length : ℚ) - 1))

/-- app.py lines 78 to 88: the KR-20 coefficient over the scored item matrix
with `k` columns (`df.shape[1]`) and one inner list per examinee row.
`none` models the NaN returned when `k < 2`, when the total variance is NaN
(fewer than two rows, in which case the final arithmetic propagates NaN),
or when the total variance is zero. -/
def kr20 (k : Nat) (rows : List (List ℚ)) : Option ℚ :=
  if k < 2 then none
  else
    match sampleVar (rowTotals rows) with
    | none => none
    | some v =>
      if v = 0 then none
      else some (((k : ℚ) / ((k : ℚ) - 1)) * (1 - pqSum k rows / v))

/-- The float comparison `x >= t` under IEEE semantics, with `none` as NaN:
every comparison against NaN is false. -/
def geNaN (x : Option ℚ) (t : ℚ) : Bool :=
  match x with
  | none => false
  | some v => decide (t ≤ v)

/-- app.py lines 90 to 96: the qualitative label of the KR-20 coefficient,
with the float comparisons made NaN aware. -/
def kr_label (alpha : Option ℚ) : String :=
  if geNaN alpha (9/10) then "Excellent"
  else if geNaN alpha (8/10) then "Good"
  else if geNaN alpha (7/10) then "Acceptable"
  else if geNaN alpha (6/10) then "Questionable"
  else if geNaN alpha (5/10) then "Poor"
  else "Unacceptable"

/-- Rows in weakly descending order of their totals: the whole guarantee the
sort call of app.py line 204 gives about its output, since the pandas
default sort kind (quicksort) is not stable. -/
def SortedByTotalDesc (l : List (List Nat)) : Prop :=
  List.Chain' (fun a b => b.sum ≤ a.sum) l

instance {ε α : Type} [DecidableEq ε] [DecidableEq α] : DecidableEq (Except ε α) := fun a b =>
  match a, b with
  | .ok x, .ok y => if h : x = y then .isTrue (by rw [h]) else .isFalse (by simp [h])
  | .error e, .error f => if h : e = f then .isTrue (by rw [h]) else .isFalse (by simp [h])
  | .ok _, .error _ => .isFalse (by simp)
  | .error _, .ok _ => .isFalse (by simp)

theorem item_cols_subset (cols : List String) : ∀ c ∈ item_cols cols, c ∈ cols :=
  fun _ hc => (List.mem_filter.mp hc).1

theorem selectCols_ok {t : Table} {sel : List String} (h : ∀ c ∈ sel, c ∈ t.cols) :
    selectCols t sel = .ok ⟨sel, restrictRows t sel⟩ :=
  if_pos h

theorem selectCols_err {t : Table} {sel : List String} (h : ¬ ∀ c ∈ sel, c ∈ t.cols) :
    selectCols t sel = .error .keyError :=
  if_neg h

theorem reconcile_eq_ok {responses key : Table}
    (h : ∀ c ∈ item_cols responses.cols, c ∈ key.cols) :
    reconcile responses key =
      .ok (⟨item_cols responses.cols, restrictRows responses (item_cols responses.cols)⟩,
           ⟨item_cols responses.cols, restrictRows key (item_cols responses.cols)⟩) := by
  unfold reconcile
  rw [selectCols_ok (item_cols_subset responses.cols), selectCols_ok h]

theorem reconcile_eq_err {responses key : Table}
    (h : ¬ ∀ c ∈ item_cols responses.cols, c ∈ key.cols) :
    reconcile responses key = .error .keyError := by
  unfold reconcile
  rw [selectCols_ok (item_cols_subset responses.cols), selectCols_err h]

theorem sortDesc_perm (l : List (List Nat)) : (sortDesc l).Perm l :=
  List.perm_insertionSort _ l

theorem getD_le_one : ∀ (r : List Nat) (j : Nat), (∀ v ∈ r, v ≤ 1) → r.getD j 0 ≤ 1
  | [], j, _ => by simp [List.getD]
  | a :: _, 0, h => h a (List.mem_cons_self _ _)
  | _ :: t, j + 1, h => by
    simpa using getD_le_one t j (fun v hv => h v (List.mem_cons_of_mem _ hv))

theorem countOnes_le_length (grp : List (List Nat)) (j : Nat)
    (h : ∀ r ∈ grp, ∀ v ∈ r, v ≤ 1) : countOnes grp j ≤ grp.length := by
  induction grp with
  | nil => simp [countOnes]
  | cons a t ih =>
    have ha : a.getD j 0 ≤ 1 := getD_le_one a j (h a (List.mem_cons_self _ _))
    have ht := ih (fun r hr => h r (List.mem_cons_of_mem _ hr))
    simp only [countOnes, List.map_cons, List.sum_cons, List.length_cons] at *
    omega

/-- Claim C1, counterexample.  At `P = 0.1`, `D = 0.5` we have `D ≥ 0.20`
with `P` outside `[0.26, 0.75]`: the claim routes this case to Revised
(`claimDecision`), but the source function falls through to Rejected. -/
theorem C1_counterexample :
    final_decision (1/10) (1/2) = "Rejected" ∧ claimDecision (1/10) (1/2) = "Revised" := by
  constructor
  · rw [final_decision, if_neg (by norm_num), if_neg (by norm_num)]
  · rw [claimDecision, if_neg (by norm_num), if_pos (by norm_num)]

/-- Claim C1, amended.  The decision of app.py lines 71 to 76 is: Retained
iff `D ≥ 0.20` and `0.26 ≤ P ≤ 0.75`; Revised iff `D < 0.20` and
`0.26 ≤ P ≤ 0.75`; Rejected iff `P` lies outside `[0.26, 0.75]`, whatever
the value of `D`. -/
theorem C1_decision_characterization (p d : ℚ) :
    (final_decision p d = "Retained" ↔ 1/5 ≤ d ∧ 13/50 ≤ p ∧ p ≤ 3/4)
  ∧ (final_decision p d = "Revised" ↔ d < 1/5 ∧ 13/50 ≤ p ∧ p ≤ 3/4)
  ∧ (final_decision p d = "Rejected" ↔ ¬(13/50 ≤ p ∧ p ≤ 3/4)) := by
  rw [final_decision]
  by_cases h1 : 1/5 ≤ d ∧ 13/50 ≤ p ∧ p ≤ 3/4
  · rw [if_pos h1]
    refine ⟨iff_of_true rfl h1, iff_of_false (by decide) ?_, iff_of_false (by decide) ?_⟩
    · exact fun hc => absurd h1.1 (not_le.mpr hc.1)
    · exact not_not_intro h1.2
  · rw [if_neg h1]
    by_cases h2 : d < 1/5 ∧ 13/50 ≤ p ∧ p ≤ 3/4
    · rw [if_pos h2]
      exact ⟨iff_of_false (by decide) h1, iff_of_true rfl h2,
             iff_of_false (by decide) (not_not_intro h2.2)⟩
    · rw [if_neg h2]
      refine ⟨iff_of_false (by decide) h1, iff_of_false (by decide) h2, iff_of_true rfl ?_⟩
      intro hband
      rcases lt_or_le d (1/5) with h | h
      · exact h2 ⟨h, hband⟩
      · exact h1 ⟨h, hband⟩

/-- Witness for the amended claim C1 at `P = 0.5`, `D = 0.5`. -/
theorem C1_decision_witness : final_decision (1/2) (1/2) = "Retained" :=
  (C1_decision_characterization (1/2) (1/2)).1.mpr (by norm_num)

/-- Claim C4: for `k ≥ 2` item columns and a defined, nonzero sample
variance of the row totals, KR-20 equals
`(k/(k-1)) * (1 - sum of p_i*q_i / total_var)`; for `k < 2` or zero total
variance the result is the undefined sentinel (NaN, modelled `none`), not
a number. -/
theorem C4_kr20 :
    (∀ (k : Nat) (rows : List (List ℚ)) (v : ℚ), 2 ≤ k →
        sampleVar (rowTotals rows) = some v → v ≠ 0 →
        kr20 k rows = some (((k : ℚ) / ((k : ℚ) - 1)) * (1 - pqSum k rows / v)))
  ∧ (∀ (k : Nat) (rows : List (List ℚ)),
        (k < 2 ∨ sampleVar (rowTotals rows) = some 0) → kr20 k rows = none) := by
  constructor
  · intro k rows v hk hv hnz
    rw [kr20, if_neg (by omega), hv]
    show (if v = 0 then none else some (((k : ℚ) / ((k : ℚ) - 1)) * (1 - pqSum k rows / v))) = _
    rw [if_neg hnz]
  · intro k rows h
    by_cases hk : k < 2
    · rw [kr20, if_pos hk]
    · rcases h with h | h
      · exact absurd h hk
      · rw [kr20, if_neg hk, h]
        show (if (0 : ℚ) = 0 then none
              else some (((k : ℚ) / ((k : ℚ) - 1)) * (1 - pqSum k rows / 0))) = none
        rw [if_pos rfl]

/-- Witness for claim C4: a 3-examinee, 2-item matrix with total variance 1
gives `alpha = 2 * (1 - (4/9)/1) = 10/9`, and a single-item matrix gives the
undefined sentinel. -/
theorem C4_kr20_witness :
    kr20 2 [[1, 0], [0, 0], [1, 1]] = some (10/9) ∧ kr20 1 [[1], [0]] = none := by
  have hv : sampleVar (rowTotals [[1, 0], [0, 0], [1, 1]]) = some 1 := by
    norm_num [sampleVar, rowTotals]
  have hpq : pqSum 2 [[1, 0], [0, 0], [1, 1]] = 4/9 := by
    norm_num [pqSum, colMean, List.range_succ]
  constructor
  · rw [C4_kr20.1 2 [[1, 0], [0, 0], [1, 1]] 1 (by norm_num) hv one_ne_zero, hpq]
    norm_num
  · exact C4_kr20.2 1 [[1], [0]] (Or.inl (by norm_num))

/-- Claim C5, evaluation at the failing input: two examinees with identical
response patterns give zero total-score variance, so KR-20 is the undefined
sentinel, yet the reported interpretation is the valid label
"Unacceptable" rather than an undefined marker. -/
theorem C5_undefined_label_eval :
    kr20 2 [[1, 0], [1, 0]] = none
  ∧ kr_label (kr20 2 [[1, 0], [1, 0]]) = "Unacceptable" := by
  have hv : sampleVar (rowTotals [[1, 0], [1, 0]]) = some 0 := by
    norm_num [sampleVar, rowTotals]
  have h : kr20 2 [[1, 0], [1, 0]] = none := by
    rw [kr20, if_neg (by norm_num), hv]
    show (if (0 : ℚ) = 0 then none
          else some (((2 : ℚ) / ((2 : ℚ) - 1)) * (1 - pqSum 2 [[1, 0], [1, 0]] / 0))) = none
    rw [if_pos rfl]
  exact ⟨h, by rw [h]; rfl⟩

/-- Claim C10: whenever KR-20 yields the NaN sentinel, every threshold
comparison in `kr_label` is false under IEEE semantics and the label falls
through to "Unacceptable". -/
theorem C10_nan_label (k : Nat) (rows : List (List ℚ)) (h : kr20 k rows = none) :
    kr_label (kr20 k rows) = "Unacceptable" := by
  rw [h]
  rfl

/-- Witness for claim C10 at the single-item matrix, where `k < 2`. -/
theorem C10_nan_label_witness :
    kr20 1 [[1]] = none ∧ kr_label (kr20 1 [[1]]) = "Unacceptable" := by
  have h : kr20 1 [[1]] = none := by rw [kr20, if_pos (by norm_num)]
  exact ⟨h, C10_nan_label 1 [[1]] h⟩

/-- Claim C2, counterexample.  First input pair: the intersection of the
detected item columns with the key columns is the nonempty list `["Item1"]`,
so the claim has reconciliation succeed and keep exactly it; the code
instead raises a KeyError because `Item2` is absent from the key.  Second
pair: the intersection is empty, yet the run does not fail with
EmptyItemSet, it proceeds with an empty item set. -/
theorem C2_counterexample :
    (item_cols ["Name", "Item1", "Item2"]).filter (fun c => ["Item1"].contains c) = ["Item1"]
  ∧ reconcile ⟨["Name", "Item1", "Item2"], [["x", "A", "B"]]⟩ ⟨["Item1"], [["A"]]⟩ =
      .error .keyError
  ∧ (item_cols ["Name"]).filter (fun c => ["Q1"].contains c) = []
  ∧ reconcile ⟨["Name"], [["x"]]⟩ ⟨["Q1"], [["A"]]⟩ = .ok (⟨[], [[]]⟩, ⟨[], [[]]⟩) :=
  ⟨by decide, by decide, by decide, by decide⟩

/-- Claim C2, amended.  Reconciliation keeps all the detected item columns,
never a proper intersection: it succeeds exactly when every item column of
the response table also occurs in the key, and otherwise fails with the
KeyError of pandas column selection — including when the intersection is
empty — so no `EmptyItemSet` failure ever arises. -/
theorem C2_reconcile (responses key : Table) :
    ((∃ out, reconcile responses key = .ok out) ↔
      ∀ c ∈ item_cols responses.cols, c ∈ key.cols)
  ∧ (∀ rt kt, reconcile responses key = .ok (rt, kt) →
      rt.cols = item_cols responses.cols ∧ kt.cols = item_cols responses.cols)
  ∧ (∀ e, reconcile responses key = .error e → e = .keyError) := by
  by_cases h : ∀ c ∈ item_cols responses.cols, c ∈ key.cols
  · rw [reconcile_eq_ok h]
    refine ⟨iff_of_true ⟨_, rfl⟩ h, ?_, ?_⟩
    · intro rt kt hok
      obtain ⟨h1, h2⟩ := Prod.mk.injEq .. ▸ Except.ok.injEq .. ▸ hok
      exact ⟨by rw [← h1], by rw [← h2]⟩
    · intro e he
      exact absurd he (by simp)
  · rw [reconcile_eq_err h]
    refine ⟨iff_of_false ?_ h, ?_, ?_⟩
    · rintro ⟨out, hout⟩
      exact absurd hout (by simp)
    · intro rt kt hok
      exact absurd hok (by simp)
    · intro e he
      simpa using he.symm

/-- Witness for the amended claim C2: with key columns covering both item
columns, reconciliation succeeds. -/
theorem C2_reconcile_witness :
    ∃ out, reconcile ⟨["Item1", "Item2"], [["A", "B"]]⟩ ⟨["Item2", "Item1"], [["B", "A"]]⟩ =
      .ok out :=
  (C2_reconcile ⟨["Item1", "Item2"], [["A", "B"]]⟩ ⟨["Item2", "Item1"], [["B", "A"]]⟩).1.mpr
    (by decide)

/-- Claim C3, counterexample.  First: a key with three columns and two data
rows — neither of the two accepted shapes, so the claim has the run fail
with InvalidKeyFormat — is processed without complaint, using its first
row.  Second: a well-formed two-column item-to-answer mapping key, an
accepted shape per the claim, raises a KeyError because its column names
are not the item columns. -/
theorem C3_counterexample :
    canonicalKey ⟨["Item1"], [["A"]]⟩
        ⟨["Item1", "Item2", "X"], [["A", "B", "C"], ["D", "E", "F"]]⟩ = .ok ["A"]
  ∧ ([["A", "B", "C"], ["D", "E", "F"]] : List (List String)).length ≠ 1
  ∧ (["Item1", "Item2", "X"] : List String).length ≠ 2
  ∧ canonicalKey ⟨["Item1"], [["A"]]⟩ ⟨["Item", "Answer"], [["Item1", "A"]]⟩ =
      .error .keyError :=
  ⟨by decide, by decide, by decide, by decide⟩

/-- Claim C3, amended.  The code performs no key-shape validation and has no
InvalidKeyFormat failure: key processing succeeds exactly when every
detected item column occurs among the key columns and the key has at least
one data row (whose first row then serves as the canonical key), whatever
the number of key rows or columns. -/
theorem C3_key_shape (responses key : Table) :
    ((∃ r, canonicalKey responses key = .ok r) ↔
      ((∀ c ∈ item_cols responses.cols, c ∈ key.cols) ∧ key.rows ≠ []))
  ∧ (∀ e, canonicalKey responses key = .error e → e ≠ .invalidKeyFormat) := by
  by_cases h : ∀ c ∈ item_cols responses.cols, c ∈ key.cols
  · unfold canonicalKey
    rw [selectCols_ok h]
    cases hr : key.rows with
    | nil =>
      constructor
      · simp [restrictRows, hr]
      · intro e he
        have : e = RunError.indexError := by simpa [restrictRows, hr] using he.symm
        rw [this]
        decide
    | cons r t =>
      constructor
      · simp [restrictRows, hr]
        exact h
      · intro e he
        exact absurd he (by simp [restrictRows, hr])
  · unfold canonicalKey
    rw [selectCols_err h]
    constructor
    · refine iff_of_false ?_ (fun hc => h hc.1)
      rintro ⟨r, hr⟩
      exact absurd hr (by simp)
    · intro e he
      have : e = RunError.keyError := by simpa using he.symm
      rw [this]
      decide

/-- Witness for the amended claim C3: a single-row aligned key is accepted. -/
theorem C3_key_shape_witness :
    ∃ r, canonicalKey ⟨["Item1"], [["A"]]⟩ ⟨["Item1"], [["B"]]⟩ = .ok r :=
  (C3_key_shape ⟨["Item1"], [["A"]]⟩ ⟨["Item1"], [["B"]]⟩).1.mpr (by decide)

/-- Claim C6, supporting evaluation.  The sort call of app.py line 204 uses
the pandas default kind, quicksort, whose only guarantee is descending
totals.  On two distinct rows with equal totals, both interleavings are
permutations of the input in descending total order, so descending order
alone does not determine the output on ties and the unstable sort gives no
reproducibility guarantee there. -/
theorem C6_tie_order_underdetermined :
    SortedByTotalDesc [[1, 0], [0, 1]]
  ∧ SortedByTotalDesc [[0, 1], [1, 0]]
  ∧ List.Perm [[1, 0], [0, 1]] [[0, 1], [1, 0]]
  ∧ ([[1, 0], [0, 1]] : List (List Nat)) ≠ [[0, 1], [1, 0]] := by
  refine ⟨?_, ?_, ?_, by decide⟩
  · simp [SortedByTotalDesc, List.chain'_cons]
  · simp [SortedByTotalDesc, List.chain'_cons]
  · exact List.Perm.swap _ _ _

/-- Claim C7, evaluation at the failing input `n = 0` (no examinee rows):
the run does not abort; it computes `g = 1`, empty Upper and Lower groups,
and per-item values `P = 0`, `D = 0` with decision Rejected from those
empty groups, while KR-20 propagates NaN. -/
theorem C7_empty_input_eval :
    groupSize 0 = 1
  ∧ topGroup [] = [] ∧ bottomGroup [] = []
  ∧ (∀ j, difficulty [] j = 0 ∧ discrimination [] j = 0)
  ∧ final_decision (difficulty [] 0) (discrimination [] 0) = "Rejected"
  ∧ kr20 2 [] = none := by
  have hd : ∀ j, difficulty [] j = 0 := by
    intro j
    norm_num [difficulty, countOnes, topGroup, bottomGroup, sortDesc, groupSize,
      List.insertionSort]
  have hs : ∀ j, discrimination [] j = 0 := by
    intro j
    norm_num [discrimination, countOnes, topGroup, bottomGroup, sortDesc, groupSize,
      List.insertionSort]
  refine ⟨rfl, rfl, rfl, fun j => ⟨hd j, hs j⟩, ?_, ?_⟩
  · rw [hd 0, hs 0, final_decision, if_neg (by norm_num), if_neg (by norm_num)]
  · simp [kr20, sampleVar, rowTotals]

/-- Claim C8: with a single examinee the group size is
`g = max(1, floor(0.27)) = 1`, the Upper and Lower groups are both exactly
the sole row, and the discrimination index is 0 for every item. -/
theorem C8_single_examinee (r : List Nat) :
    groupSize ([r] : List (List Nat)).length = 1
  ∧ topGroup [r] = [r] ∧ bottomGroup [r] = [r]
  ∧ ∀ j, discrimination [r] j = 0 := by
  have hg : groupSize ([r] : List (List Nat)).length = 1 := by norm_num [groupSize]
  have hsort : sortDesc [r] = [r] := by simp [sortDesc, List.insertionSort]
  have ht : topGroup [r] = [r] := by
    rw [topGroup, hsort, hg]
    simp
  have hb : bottomGroup [r] = [r] := by
    rw [bottomGroup, hsort, hg]
    simp
  refine ⟨hg, ht, hb, ?_⟩
  intro j
  simp [discrimination, ht, hb]

/-- Witness for claim C8 at the single row `[1, 0]`. -/
theorem C8_single_examinee_witness :
    topGroup [[1, 0]] = [[1, 0]] ∧ bottomGroup [[1, 0]] = [[1, 0]]
  ∧ discrimination [[1, 0]] 0 = 0 :=
  ⟨(C8_single_examinee [1, 0]).2.1, (C8_single_examinee [1, 0]).2.2.1,
   (C8_single_examinee [1, 0]).2.2.2 0⟩

/-- Claim C9: on any binary scored matrix, every difficulty index lies in
`[0, 1]` and every discrimination index lies in `[-1, 1]`, because `U` and
`L` are counts of ones over at most `g` rows each. -/
theorem C9_index_bounds (scored : List (List Nat)) (j : Nat)
    (hbin : ∀ r ∈ scored, ∀ v ∈ r, v ≤ 1) :
    (0 ≤ difficulty scored j ∧ difficulty scored j ≤ 1)
  ∧ ((-1 : ℚ) ≤ discrimination scored j ∧ discrimination scored j ≤ 1) := by
  have hbin2 : ∀ r ∈ sortDesc scored, ∀ v ∈ r, v ≤ 1 := by
    intro r hr
    exact hbin r ((sortDesc_perm scored).mem_iff.mp hr)
  have hg1 : 1 ≤ groupSize scored.length := le_max_left _ _
  have hU : countOnes (topGroup scored) j ≤ groupSize scored.length := by
    have h1 := countOnes_le_length (topGroup scored) j
      (fun r hr => hbin2 r (List.take_subset _ _ hr))
    have h2 : (topGroup scored).length ≤ groupSize scored.length := by
      rw [topGroup, List.length_take]
      exact min_le_left _ _
    omega
  have hL : countOnes (bottomGroup scored) j ≤ groupSize scored.length := by
    have h1 := countOnes_le_length (bottomGroup scored) j
      (fun r hr => hbin2 r (List.drop_subset _ _ hr))
    have h2 : (bottomGroup scored).length ≤ groupSize scored.length := by
      rw [bottomGroup, List.length_drop]
      omega
    omega
  set g := groupSize scored.length with hgdef
  set U := countOnes (topGroup scored) j with hUdef
  set L := countOnes (bottomGroup scored) j with hLdef
  have hgQ : (0 : ℚ) < (g : ℚ) := by
    have : 0 < g := hg1
    exact_mod_cast this
  have hUQ : (U : ℚ) ≤ (g : ℚ) := Nat.cast_le.mpr hU
  have hLQ : (L : ℚ) ≤ (g : ℚ) := Nat.cast_le.mpr hL
  have hU0 : (0 : ℚ) ≤ (U : ℚ) := Nat.cast_nonneg U
  have hL0 : (0 : ℚ) ≤ (L : ℚ) := Nat.cast_nonneg L
  rw [difficulty, discrimination, ← hgdef, ← hUdef, ← hLdef]
  refine ⟨⟨?_, ?_⟩, ?_, ?_⟩
  · exact div_nonneg (by linarith) (by linarith)
  · rw [div_le_one (by linarith)]
    linarith
  · rw [le_div_iff₀ hgQ]
    linarith
  · rw [div_le_one hgQ]
    linarith

/-- Witness for claim C9 on a concrete binary 2-by-2 matrix. -/
theorem C9_index_bounds_witness :
    (0 ≤ difficulty [[1, 0], [0, 1]] 0 ∧ difficulty [[1, 0], [0, 1]] 0 ≤ 1)
  ∧ ((-1 : ℚ) ≤ discrimination [[1, 0], [0, 1]] 0 ∧ discrimination [[1, 0], [0, 1]] 0 ≤ 1) :=
  C9_index_bounds [[1, 0], [0, 1]] 0 (by decide)

end Arete
